import Mathlib

/-!
Shallow embedding of the OAuth authentication core of the auth-express
repository: the user store and schema (src/src/model/user.ts), the OAuth
helper service (src/src/controller/auth/service.ts) and the authentication
controller (AuthController.oauthCallback, AuthController.oAuthMobile,
AuthController.loginWithToken in src/unnamed/part_000), together with the
google-auth-library verification step and the JWT plugin.

Modelling conventions:
- optional / possibly-undefined JavaScript strings are Option String; the
  JS truthiness test for strings (undefined, null and "" are falsy) is the
  function truthy below;
- Date values are Nat timestamps;
- a thrown exception that escapes a handler uncaught is the .error case of
  an Except result; an HTTP response actually produced by a handler is a
  constructor of the handler's response type, one constructor per return
  site in the source.
-/

/-- JS string truthiness: undefined, null and the empty string are falsy,
every other string is truthy. -/
def truthy : Option String → Bool
  | none => false
  | some s => !s.isEmpty

/-- Abstraction of validator.isEmail used by the email path validator in
userSchema (src/src/model/user.ts line 70): every address accepted by
validator.isEmail contains an @ sign. -/
def validEmail (s : String) : Bool := s.data.contains '@'

/-- Abstraction of validator.isURL used by the avatar path validator in
userSchema (line 125): the URL begins with http. -/
def validURL (s : String) : Bool :=
  match s.data with
  | 'h' :: 't' :: 't' :: 'p' :: _ => true
  | _ => false

/-- Character-wise lowercasing, modelling both JS String.toLowerCase (the
controller's provider.toLowerCase()) and the mongoose lowercase email
setter. -/
def lowerString (s : String) : String := ⟨s.data.map Char.toLower⟩

/-- The fields of a users-collection document (src/src/model/user.ts) that
the OAuth core reads or writes.  Fields the OAuth flows never touch
(phone, dateOfBirth, gender, loginAttempts, lockUntil, timestamps,
customerPreferences, verification/reset tokens) are omitted. -/
structure Account where
  id : Nat
  name : Option String
  email : Option String
  password : Option String
  role : String
  firstName : Option String
  lastName : Option String
  avatar : Option String
  isEmailVerified : Bool
  googleId : Option String
  isGoogleUser : Bool
  provider : Option String
  lastLogin : Option Nat
deriving DecidableEq, Repr

/-- The users collection: the list of documents plus the next
store-assigned id. -/
structure Store where
  accounts : List Account
  nextId : Nat
deriving DecidableEq, Repr

def emptyStore : Store := ⟨[], 1⟩

/-- Errors raised by the store: mongoose document validation failure
(error.name = "ValidationError") or a unique-index violation at insert
(a MongoServerError, whose name is not "ValidationError"). -/
inductive DbError
  | validationError
  | duplicateKey
deriving DecidableEq, Repr

/-- The userSchema path validators on the modelled fields
(src/src/model/user.ts lines 55-196): name required with maxlength 100,
email required and validator.isEmail, password required with minlength 6
unless isGoogleUser, role enum, firstName/lastName maxlength 50, avatar
URL when present, provider enum and required exactly when isGoogleUser.
The googleId path has a sparse non-unique index and no validator. -/
def validateAccount (a : Account) : Bool :=
  truthy a.name && (a.name.getD "").length ≤ 100 &&
  (match a.email with
   | some e => !e.isEmpty && validEmail e
   | none => false) &&
  (match a.password with
   | some p => 6 ≤ p.length
   | none => a.isGoogleUser) &&
  (a.role == "user" || a.role == "admin" || a.role == "customer") &&
  (a.firstName.getD "").length ≤ 50 &&
  (a.lastName.getD "").length ≤ 50 &&
  (match a.avatar with
   | some v => v.isEmpty || validURL v
   | none => true) &&
  (!a.isGoogleUser || truthy a.provider) &&
  (match a.provider with
   | some p => p == "google" || p == "facebook" || p == "apple"
   | none => true)

/-- First half of userSchema.pre("save") (lines 235-239): set
isEmailVerified for Google users. -/
def preSaveVerify (a : Account) : Account :=
  if a.isGoogleUser && !a.isEmailVerified then { a with isEmailVerified := true } else a

/-- Second half of userSchema.pre("save") (lines 241-244): fill name from
firstName and lastName when name is falsy. -/
def preSaveName (a : Account) : Account :=
  if truthy a.firstName && truthy a.lastName && !truthy a.name then
    { a with name := some ((a.firstName.getD "") ++ " " ++ (a.lastName.getD "")) }
  else a

/-- userSchema.pre("save") middleware; in mongoose it runs after the
built-in validation hook and before the write. -/
def preSave (a : Account) : Account := preSaveName (preSaveVerify a)

/-- The schema email setter: lowercase (the trim setter is irrelevant to
the flows modelled, which pass untrimmed provider values through). -/
def normEmail : Option String → Option String := Option.map lowerString

/-- Fields assigned by the store at insert: the setter-normalized email and
the store-assigned id. -/
def Account.withInsertDefaults (data : Account) (nid : Nat) : Account :=
  { data with email := normEmail data.email, id := nid }

/-- The document as it is inserted by User.create: setters and assigned id,
then the pre-save middleware. -/
def insertDoc (data : Account) (s : Store) : Account :=
  preSave (data.withInsertDefaults s.nextId)

/-- User.create: apply setters and assign an id, run validation, run the
pre-save middleware, then insert, enforcing the unique index on email.
There is no unique index on googleId (the schema declares it sparse and
indexed but not unique), so no googleId uniqueness is enforced. -/
def Store.create (data : Account) (s : Store) : Except DbError (Account × Store) :=
  if validateAccount (data.withInsertDefaults s.nextId) then
    if s.accounts.any (fun b => b.email == (insertDoc data s).email) then .error .duplicateKey
    else .ok (insertDoc data s, ⟨s.accounts ++ [insertDoc data s], s.nextId + 1⟩)
  else .error .validationError

/-- user.save() on an already-loaded document: validation, pre-save
middleware, write back in place by id.  The update flows never modify the
email path, so the unique-index re-check cannot fire and is not modelled. -/
def Store.save (a : Account) (s : Store) : Except DbError (Account × Store) :=
  if validateAccount a then
    .ok (preSave a,
         ⟨s.accounts.map (fun b => if b.id == (preSave a).id then preSave a else b), s.nextId⟩)
  else .error .validationError

/-- User.findOne with a googleId filter: first document whose googleId
equals the given value.  The OAuth lookups in both orchestrators use only
this query; no lookup by email exists in either flow. -/
def findByGoogleId (s : Store) (gid : String) : Option Account :=
  s.accounts.find? (fun a => a.googleId == some gid)

/-- JWT signing keys, from src/unnamed config (plugin/config defaults). -/
def key_access : String := "k2y_acc3ss"

def key_refresh : String := "k2y_refr3sh"

/-- The claim payload the controller builds before signing:
payload = \x7b name, idUser, role \x7d. -/
structure Claims where
  name : Option String
  idUser : Nat
  role : String
deriving DecidableEq, Repr

/-- A signed token, symbolically: its claims, the secret it was signed
with, and its expiry timestamp. -/
structure Jwt where
  claims : Claims
  secret : String
  exp : Nat
deriving DecidableEq, Repr

structure TokenPair where
  accessToken : Jwt
  refreshToken : Jwt
deriving DecidableEq, Repr

/-- Modelled from the spec: src/plugin/token (imported by the controller as
Token) is not under src/; spec section 4.3 requires a short access-token
expiry and a longer refresh-token expiry.  Concrete second counts chosen
arbitrarily with accessTtl < refreshTtl. -/
def accessTtl : Nat := 3600

def refreshTtl : Nat := 2592000

/-- Modelled from the spec: Token.sign of src/plugin/token is not under
src/.  Spec section 4.3: sign an access token with short expiry using the
access secret and a refresh token with long expiry using the refresh
secret, both over the same claim payload. -/
def Token.sign (payload : Claims) (now : Nat) : TokenPair :=
  ⟨⟨payload, key_access, now + accessTtl⟩, ⟨payload, key_refresh, now + refreshTtl⟩⟩

inductive TokenErr
  | invalidRefreshToken
deriving DecidableEq, Repr

/-- Modelled from the spec: Token.refresh of src/plugin/token is not under
src/.  Spec section 4.3: verify the refresh token's signature and expiry
against the refresh secret and re-issue a fresh pair bound to the same
claims; fail with InvalidRefreshTokenError otherwise. -/
def Token.refresh (rt : Jwt) (now : Nat) : Except TokenErr TokenPair :=
  if rt.secret == key_refresh && now < rt.exp then .ok (Token.sign rt.claims now)
  else .error .invalidRefreshToken

/-- Responses of AuthController.loginWithToken (part_000 lines 71-83):
either the 500 missing-information response or the 200 with the new pair. -/
inductive RefreshRes
  | missingInfo
  | success (tokens : TokenPair)
deriving DecidableEq, Repr

/-- AuthController.loginWithToken (part_000 lines 71-83).  The catch block
rethrows (throw error), so a Token.refresh failure escapes the handler as
an exception (.error) and no HTTP response is produced by the controller. -/
def loginWithToken (now : Nat) (refreshToken : Option Jwt) : Except TokenErr RefreshRes :=
  match refreshToken with
  | none => .ok .missingInfo
  | some rt =>
    match Token.refresh rt now with
    | .ok pair => .ok (.success pair)
    | .error e => .error e

/-- A Google ID token as the mobile flow sees it: the decoded payload
claims, plus the facts the verification library checks (signature
validity, expiry) and whether the compact form splits into exactly three
dot-separated parts (wellFormed). -/
structure IdToken where
  aud : Option String
  sub : Option String
  email : Option String
  name : Option String
  given_name : Option String
  family_name : Option String
  picture : Option String
  sigValid : Bool
  expired : Bool
  wellFormed : Bool
deriving DecidableEq, Repr

/-- The normalized userProfile record the mobile flow builds from the
verified payload (part_000 lines 301-308), with the name falling back to
the email. -/
structure UserProfile where
  id : String
  name : String
  given_name : Option String
  family_name : Option String
  picture : Option String
  email : String
deriving DecidableEq, Repr

def userProfileOf (tok : IdToken) : UserProfile :=
  { id := tok.sub.getD ""
    name := if truthy tok.name then tok.name.getD "" else tok.email.getD ""
    given_name := tok.given_name
    family_name := tok.family_name
    picture := tok.picture
    email := tok.email.getD "" }

/-- Errors of google-auth-library's OAuth2Client.verifyIdToken, split by
whether the error message contains the word "audience" (the controller
branches on exactly that). -/
inductive VerifyErr
  | audience
  | invalid
deriving DecidableEq, Repr

/-- Model of google-auth-library's OAuth2Client.verifyIdToken: signature
and expiry are checked, and the aud claim must be one of the audiences
passed in; an audience failure carries "audience" in its message. -/
def verifyIdToken (tok : IdToken) (auds : List String) : Except VerifyErr Unit :=
  if !tok.sigValid || tok.expired then .error .invalid
  else
    match tok.aud with
    | some a => if auds.contains a then .ok () else .error .audience
    | none => .error .audience

/-- allowedAudiences (part_000 lines 254-258):
[GOOGLE_CLIENT_ID, tokenPayload.aud].filter(Boolean) - the token's own
audience is included ("Temporarily allow the token's audience for
debugging"). -/
def allowedAudiences (cid : Option String) (aud : Option String) : List String :=
  ([cid, aud].filterMap id).filter (fun s => !s.isEmpty)

def supportedProviders : List String := ["google"]

/-- Environment of the mobile handler: the configured GOOGLE_CLIENT_ID and
whether Token.sign throws on this request (token issuance is the one
downstream step after the account write that can still fail). -/
structure MobileEnv where
  googleClientId : Option String
  signFails : Bool
deriving DecidableEq, Repr

/-- Responses of AuthController.oAuthMobile, one constructor per return
site (part_000 lines 194-385).  audienceMismatch carries the diagnostic
details \x7b tokenAudience, expectedAudience \x7d of lines 271-274. -/
inductive MobileRes
  | missingTokenId
  | missingProvider
  | unsupportedProvider
  | providerNotImplemented
  | decodeFailed
  | audienceMismatch (tokenAudience : Option String) (expectedAudience : Option String)
  | verificationFailed
  | incompleteProfile
  | validationError
  | internalError
  | success (user : Account) (tokens : TokenPair)
deriving DecidableEq, Repr

/-- HTTP status of each oAuthMobile response. -/
def mobileStatus : MobileRes → Nat
  | .missingTokenId => 400
  | .missingProvider => 400
  | .unsupportedProvider => 400
  | .providerNotImplemented => 400
  | .decodeFailed => 401
  | .audienceMismatch _ _ => 401
  | .verificationFailed => 401
  | .incompleteProfile => 400
  | .validationError => 400
  | .internalError => 500
  | .success _ _ => 200

/-- The newUserData record of the mobile create branch
(part_000 lines 330-342). -/
def mobileNewData (p : UserProfile) (prov : String) (now : Nat) : Account :=
  { id := 0
    googleId := some p.id
    name := some p.name
    firstName := p.given_name
    lastName := p.family_name
    avatar := p.picture
    email := some p.email
    password := none
    isGoogleUser := true
    isEmailVerified := true
    role := "customer"
    lastLogin := some now
    provider := some prov }

/-- The find-or-create-and-update block of the mobile flow
(part_000 lines 310-345): lookup by googleId; on hit overwrite the profile
fields, set lastLogin, backfill provider when it is falsy, and save; on
miss create the new user record. -/
def reconcileMobile (p : UserProfile) (prov : String) (now : Nat) (s : Store) :
    Except DbError (Account × Store) :=
  match findByGoogleId s p.id with
  | some a =>
    Store.save
      { a with
        name := some p.name
        firstName := p.given_name
        lastName := p.family_name
        avatar := p.picture
        lastLogin := some now
        provider := if truthy a.provider then a.provider else some prov } s
  | none => Store.create (mobileNewData p prov now) s

/-- AuthController.oAuthMobile (part_000 lines 194-385).  tokenId is none
when the request body field is absent or falsy; a present token carries
its decoded payload and verification facts.  The outer catch maps a
mongoose ValidationError to the 400 validation response and every other
thrown error (duplicate key, signing failure) to the 500 response; the
store state reached before the throw persists. -/
def oAuthMobileRun (env : MobileEnv) (tokenId : Option IdToken) (provider : Option String)
    (now : Nat) (s : Store) : MobileRes × Store :=
  match tokenId with
  | none => (.missingTokenId, s)
  | some tok =>
    if !truthy provider then (.missingProvider, s)
    else if !supportedProviders.contains (lowerString (provider.getD "")) then
      (.unsupportedProvider, s)
    else if lowerString (provider.getD "") != "google" then (.providerNotImplemented, s)
    else if !tok.wellFormed then (.decodeFailed, s)
    else
      match verifyIdToken tok (allowedAudiences env.googleClientId tok.aud) with
      | .error .audience => (.audienceMismatch tok.aud env.googleClientId, s)
      | .error .invalid => (.verificationFailed, s)
      | .ok _ =>
        if !truthy tok.sub || !truthy tok.email then (.incompleteProfile, s)
        else
          match reconcileMobile (userProfileOf tok) (lowerString (provider.getD "")) now s with
          | .error .validationError => (.validationError, s)
          | .error .duplicateKey => (.internalError, s)
          | .ok (u, s2) =>
            if env.signFails then (.internalError, s2)
            else (.success u (Token.sign ⟨u.name, u.id, u.role⟩ now), s2)

/-- The token-endpoint response body of exchangeCodeForToken
(src/src/controller/auth/service.ts): only the access_token field is
consumed downstream. -/
structure TokenData where
  access_token : Option String
deriving DecidableEq, Repr

/-- The Google userinfo profile consumed by the callback flow
(src/src/controller/auth/service.ts getUserProfile and part_000
lines 136-163). -/
structure CbProfile where
  id : String
  name : Option String
  given_name : Option String
  family_name : Option String
  picture : Option String
  email : Option String
deriving DecidableEq, Repr

/-- Environment of the callback handler: exchangeCodeForToken returns
null (none) when the provider rejects the code and the response body
otherwise; getUserProfile returns null (none) when the userinfo call
fails; signFails as in MobileEnv. -/
structure CbEnv where
  exchange : String → Option TokenData
  getProfile : Option String → Option CbProfile
  signFails : Bool

/-- Responses of AuthController.oauthCallback, one constructor per return
site (part_000 lines 104-192).  The catch has no ValidationError special
case: every thrown error becomes the 500 response. -/
inductive CallbackRes
  | missingCode
  | tokenExchangeFailed
  | profileFetchFailed
  | internalError
  | success (user : Account) (tokens : TokenPair)
deriving DecidableEq, Repr

/-- HTTP status of each oauthCallback response. -/
def callbackStatus : CallbackRes → Nat
  | .missingCode => 400
  | .tokenExchangeFailed => 400
  | .profileFetchFailed => 400
  | .internalError => 500
  | .success _ _ => 200

/-- The find-or-create-and-update block of the callback flow
(part_000 lines 136-163): same lookup and profile overwrite as the mobile
flow but with no provider backfill on update and no provider field in the
newUserData of the create branch. -/
def reconcileCallback (p : CbProfile) (now : Nat) (s : Store) :
    Except DbError (Account × Store) :=
  match findByGoogleId s p.id with
  | some a =>
    Store.save
      { a with
        name := p.name
        firstName := p.given_name
        lastName := p.family_name
        avatar := p.picture
        lastLogin := some now } s
  | none =>
    Store.create
      { id := 0
        googleId := some p.id
        name := p.name
        firstName := p.given_name
        lastName := p.family_name
        avatar := p.picture
        email := p.email
        password := none
        isGoogleUser := true
        isEmailVerified := true
        role := "customer"
        lastLogin := some now
        provider := none } s

/-- AuthController.oauthCallback (part_000 lines 104-192). -/
def oauthCallbackRun (env : CbEnv) (code : Option String) (now : Nat) (s : Store) :
    CallbackRes × Store :=
  if !truthy code then (.missingCode, s)
  else
    match env.exchange (code.getD "") with
    | none => (.tokenExchangeFailed, s)
    | some td =>
      match env.getProfile td.access_token with
      | none => (.profileFetchFailed, s)
      | some p =>
        match reconcileCallback p now s with
        | .error _ => (.internalError, s)
        | .ok (u, s2) =>
          if env.signFails then (.internalError, s2)
          else (.success u (Token.sign ⟨u.name, u.id, u.role⟩ now), s2)

/-- Concrete data for the audience-mismatch scenario of the spec: a
structurally valid, correctly signed, unexpired token whose aud claim is
client-999 while the configured client id is client-123. -/
def tokC1 : IdToken :=
  ⟨some "client-999", some "g123", some "a@b.com", none, none, none, none, true, false, true⟩

/-- The account the mobile flow creates for tokC1. -/
def acctC1 : Account :=
  ⟨1, some "a@b.com", some "a@b.com", none, "customer", none, none, none, true,
   some "g123", true, some "google", some 5⟩

/-- Callback environment whose token-endpoint response carries no
access_token field and whose userinfo call fails. -/
def envC2 : CbEnv := ⟨fun _ => some ⟨none⟩, fun _ => none, false⟩

/-- Callback environment in which the provider rejects the code. -/
def envC2b : CbEnv := ⟨fun _ => none, fun _ => none, false⟩

def claimsC3 : Claims := ⟨some "alice", 1, "customer"⟩

/-- A refresh token signed with the wrong secret (tampered). -/
def tamperedC3 : Jwt := ⟨claimsC3, "tampered", 1000000000⟩

/-- Two distinct create payloads sharing the same googleId. -/
def c4d1 : Account :=
  ⟨0, some "A One", some "a1@x.com", none, "customer", none, none, none, true,
   some "g1", true, some "google", none⟩

def c4d2 : Account :=
  ⟨0, some "A Two", some "a2@x.com", none, "customer", none, none, none, true,
   some "g1", true, some "google", none⟩

/-- An existing password account that also carries a googleId but predates
provider tracking (provider unset, isGoogleUser false). -/
def acctC5 : Account :=
  ⟨1, some "Old Name", some "old@x.com", some "hunter22", "customer", none, none, none,
   false, some "g1", false, none, none⟩

def profC5 : CbProfile := ⟨"g1", some "New Name", none, none, none, some "old@x.com"⟩

def envC5 : CbEnv := ⟨fun _ => some ⟨some "at"⟩, fun _ => some profC5, false⟩

/-- acctC5 after the callback update: fresh profile, provider still unset. -/
def acctC5b : Account :=
  ⟨1, some "New Name", some "old@x.com", some "hunter22", "customer", none, none, none,
   false, some "g1", false, none, some 7⟩

/-- A Google-linked account predating provider tracking, for the mobile
backfill witness. -/
def acctC5m : Account :=
  ⟨1, some "Old", some "m5@x.com", none, "customer", none, none, none, true,
   some "gm5", true, none, none⟩

def profC5m : UserProfile := ⟨"gm5", "Fresh", none, none, none, "m5@x.com"⟩

/-- acctC5m after the mobile update: fresh profile and backfilled provider. -/
def acctC5mb : Account :=
  ⟨1, some "Fresh", some "m5@x.com", none, "customer", none, none, none, true,
   some "gm5", true, some "google", some 9⟩

def tokC6 : IdToken :=
  ⟨some "audw", some "gw6", some "w6@x.com", some "W Six", none, none, none, true, false, true⟩

def acctC6 : Account :=
  ⟨1, some "W Six", some "w6@x.com", none, "customer", none, none, none, true,
   some "gw6", true, some "google", some 4⟩

def acctC6cb : Account :=
  ⟨1, some "CB Old", some "cb@x.com", none, "customer", none, none, none, true,
   some "gcb", true, some "google", none⟩

def profC6cb : CbProfile := ⟨"gcb", some "CB New", none, none, none, some "cb@x.com"⟩

/-- Callback environment with a failing token signer. -/
def envC6 : CbEnv := ⟨fun _ => some ⟨some "t"⟩, fun _ => some profC6cb, true⟩

def acctC6cb2 : Account :=
  ⟨1, some "CB New", some "cb@x.com", none, "customer", none, none, none, true,
   some "gcb", true, some "google", some 11⟩

/-- An existing non-OAuth account (no googleId) holding the email a@b.com. -/
def acctC7 : Account :=
  ⟨1, some "Bob", some "a@b.com", some "hunter22", "customer", none, none, none,
   false, none, false, none, none⟩

/-- A valid mobile token for a first-time OAuth login whose email equals
acctC7's email. -/
def tokC7 : IdToken :=
  ⟨some "client-123", some "g123", some "a@b.com", none, none, none, none, true, false, true⟩

/-- A valid mobile token with no display name and an upper-case email, for
the creation witness. -/
def tokC7w : IdToken :=
  ⟨some "aud7", some "g777", some "SEVEN@x.com", none, none, none, none, true, false, true⟩

/-- The account created for tokC7w: name falls back to the raw email while
the stored email is lowercased by the schema setter. -/
def acctC7w : Account :=
  ⟨1, some "SEVEN@x.com", some "seven@x.com", none, "customer", none, none, none, true,
   some "g777", true, some "google", some 12⟩

def profC8a : UserProfile := ⟨"g8", "First Name", none, none, none, "e8@x.com"⟩

def profC8b : UserProfile :=
  ⟨"g8", "Second", some "S", some "N", some "http://a.img", "ignored@x.com"⟩

def acctC8a : Account :=
  ⟨1, some "First Name", some "e8@x.com", none, "customer", none, none, none, true,
   some "g8", true, some "google", some 1⟩

def acctC8b : Account :=
  ⟨1, some "Second", some "e8@x.com", none, "customer", some "S", some "N",
   some "http://a.img", true, some "g8", true, some "google", some 2⟩

/-- An out-of-band admin account linked to Google, for the monotonicity
witness. -/
def acctC9 : Account :=
  ⟨1, some "Root", some "r9@x.com", none, "admin", none, none, none, true,
   some "g9", true, some "google", none⟩

def profC9 : UserProfile := ⟨"g9", "Root Two", none, none, none, "r9@x.com"⟩

def acctC9b : Account :=
  ⟨1, some "Root Two", some "r9@x.com", none, "admin", none, none, none, true,
   some "g9", true, some "google", some 3⟩

def profC9cb : CbProfile := ⟨"g9", some "Root Three", none, none, none, some "r9@x.com"⟩

def acctC9c : Account :=
  ⟨1, some "Root Three", some "r9@x.com", none, "admin", none, none, none, true,
   some "g9", true, some "google", some 4⟩

/-- A userinfo profile for a first-time callback login whose email equals
acctC7's email. -/
def profC10 : CbProfile := ⟨"g123", some "Bob Two", none, none, none, some "a@b.com"⟩

/-- Callback environment delivering profC10. -/
def envC10 : CbEnv := ⟨fun _ => some ⟨some "at10"⟩, fun _ => some profC10, false⟩

lemma preSaveVerify_id (a : Account) : (preSaveVerify a).id = a.id := by
  unfold preSaveVerify; split <;> rfl

lemma preSaveVerify_name (a : Account) : (preSaveVerify a).name = a.name := by
  unfold preSaveVerify; split <;> rfl

lemma preSaveVerify_email (a : Account) : (preSaveVerify a).email = a.email := by
  unfold preSaveVerify; split <;> rfl

lemma preSaveVerify_password (a : Account) : (preSaveVerify a).password = a.password := by
  unfold preSaveVerify; split <;> rfl

lemma preSaveVerify_role (a : Account) : (preSaveVerify a).role = a.role := by
  unfold preSaveVerify; split <;> rfl

lemma preSaveVerify_firstName (a : Account) : (preSaveVerify a).firstName = a.firstName := by
  unfold preSaveVerify; split <;> rfl

lemma preSaveVerify_lastName (a : Account) : (preSaveVerify a).lastName = a.lastName := by
  unfold preSaveVerify; split <;> rfl

lemma preSaveVerify_avatar (a : Account) : (preSaveVerify a).avatar = a.avatar := by
  unfold preSaveVerify; split <;> rfl

lemma preSaveVerify_googleId (a : Account) : (preSaveVerify a).googleId = a.googleId := by
  unfold preSaveVerify; split <;> rfl

lemma preSaveVerify_isGoogleUser (a : Account) : (preSaveVerify a).isGoogleUser = a.isGoogleUser := by
  unfold preSaveVerify; split <;> rfl

lemma preSaveVerify_provider (a : Account) : (preSaveVerify a).provider = a.provider := by
  unfold preSaveVerify; split <;> rfl

lemma preSaveVerify_lastLogin (a : Account) : (preSaveVerify a).lastLogin = a.lastLogin := by
  unfold preSaveVerify; split <;> rfl

lemma preSaveVerify_isEmailVerified (a : Account) :
    (preSaveVerify a).isEmailVerified = (a.isEmailVerified || a.isGoogleUser) := by
  unfold preSaveVerify
  cases hg : a.isGoogleUser <;> cases he : a.isEmailVerified <;> simp [hg, he]

lemma preSaveName_id (a : Account) : (preSaveName a).id = a.id := by
  unfold preSaveName; split <;> rfl

lemma preSaveName_email (a : Account) : (preSaveName a).email = a.email := by
  unfold preSaveName; split <;> rfl

lemma preSaveName_password (a : Account) : (preSaveName a).password = a.password := by
  unfold preSaveName; split <;> rfl

lemma preSaveName_role (a : Account) : (preSaveName a).role = a.role := by
  unfold preSaveName; split <;> rfl

lemma preSaveName_firstName (a : Account) : (preSaveName a).firstName = a.firstName := by
  unfold preSaveName; split <;> rfl

lemma preSaveName_lastName (a : Account) : (preSaveName a).lastName = a.lastName := by
  unfold preSaveName; split <;> rfl

lemma preSaveName_avatar (a : Account) : (preSaveName a).avatar = a.avatar := by
  unfold preSaveName; split <;> rfl

lemma preSaveName_googleId (a : Account) : (preSaveName a).googleId = a.googleId := by
  unfold preSaveName; split <;> rfl

lemma preSaveName_isGoogleUser (a : Account) : (preSaveName a).isGoogleUser = a.isGoogleUser := by
  unfold preSaveName; split <;> rfl

lemma preSaveName_provider (a : Account) : (preSaveName a).provider = a.provider := by
  unfold preSaveName; split <;> rfl

lemma preSaveName_lastLogin (a : Account) : (preSaveName a).lastLogin = a.lastLogin := by
  unfold preSaveName; split <;> rfl

lemma preSaveName_isEmailVerified (a : Account) :
    (preSaveName a).isEmailVerified = a.isEmailVerified := by
  unfold preSaveName; split <;> rfl

lemma preSaveName_name_of_truthy (a : Account) (h : truthy a.name = true) :
    (preSaveName a).name = a.name := by
  unfold preSaveName
  split
  · rename_i hc
    rw [h] at hc
    simp at hc
  · rfl

lemma preSave_name_of_truthy (a : Account) (h : truthy a.name = true) :
    (preSave a).name = a.name := by
  have h2 : truthy (preSaveVerify a).name = true := by rw [preSaveVerify_name]; exact h
  unfold preSave
  rw [preSaveName_name_of_truthy _ h2, preSaveVerify_name]

lemma preSave_isEmailVerified (a : Account) :
    (preSave a).isEmailVerified = (a.isEmailVerified || a.isGoogleUser) := by
  unfold preSave
  rw [preSaveName_isEmailVerified, preSaveVerify_isEmailVerified]

lemma Store.save_ok {a u : Account} {s s2 : Store}
    (h : Store.save a s = .ok (u, s2)) :
    validateAccount a = true ∧ u = preSave a ∧
    s2 = ⟨s.accounts.map (fun b => if b.id == (preSave a).id then preSave a else b),
          s.nextId⟩ := by
  unfold Store.save at h
  split at h
  · rename_i hv
    simp only [Except.ok.injEq, Prod.mk.injEq] at h
    exact ⟨hv, h.1.symm, h.2.symm⟩
  · exact absurd h (by simp)

lemma Store.create_ok {d u : Account} {s s2 : Store}
    (h : Store.create d s = .ok (u, s2)) :
    validateAccount (d.withInsertDefaults s.nextId) = true ∧
    s.accounts.any (fun b => b.email == (insertDoc d s).email) = false ∧
    u = insertDoc d s ∧ s2 = ⟨s.accounts ++ [insertDoc d s], s.nextId + 1⟩ := by
  unfold Store.create at h
  split at h
  · rename_i hv
    split at h
    · exact absurd h (by simp)
    · rename_i hdup
      simp only [Except.ok.injEq, Prod.mk.injEq] at h
      exact ⟨hv, by simpa using hdup, h.1.symm, h.2.symm⟩
  · exact absurd h (by simp)

lemma find?_append_of_none {p : Account → Bool} {l1 l2 : List Account}
    (h : l1.find? p = none) : (l1 ++ l2).find? p = l2.find? p := by
  induction l1 with
  | nil => simp
  | cons x xs ih =>
    cases hx : p x with
    | true =>
      rw [List.find?_cons_of_pos _ hx] at h
      simp at h
    | false =>
      rw [List.find?_cons_of_neg _ (by simp [hx])] at h
      rw [List.cons_append, List.find?_cons_of_neg _ (by simp [hx])]
      exact ih h

lemma find?_replace {pred : Account → Bool} {l : List Account} {a : Account} (u : Account)
    (hfind : l.find? pred = some a) (hid : u.id = a.id) (hu : pred u = true) :
    (l.map (fun b => if b.id == u.id then u else b)).find? pred = some u := by
  induction l with
  | nil => simp at hfind
  | cons x xs ih =>
    by_cases hxi : (x.id == u.id) = true
    · simp only [List.map_cons, hxi, if_true]
      exact List.find?_cons_of_pos _ hu
    · cases hx : pred x with
      | true =>
        rw [List.find?_cons_of_pos _ hx] at hfind
        injection hfind with hxa
        subst hxa
        rw [hid] at hxi
        simp at hxi
      | false =>
        rw [List.find?_cons_of_neg _ (by simp [hx])] at hfind
        simp only [List.map_cons, hxi, if_false]
        rw [List.find?_cons_of_neg _ (by simp [hx])]
        exact ih hfind

lemma findByGoogleId_save {s s2 : Store} {gid : String} {a a2 u : Account}
    (hfind : findByGoogleId s gid = some a)
    (hsave : Store.save a2 s = .ok (u, s2))
    (hid : a2.id = a.id) (hgid : a2.googleId = some gid) :
    findByGoogleId s2 gid = some u := by
  obtain ⟨hv, hu, hs⟩ := Store.save_ok hsave
  subst hu
  subst hs
  unfold findByGoogleId at hfind ⊢
  have hid2 : (preSave a2).id = a.id := by
    unfold preSave
    rw [preSaveName_id, preSaveVerify_id, hid]
  have hpu : (fun b => b.googleId == some gid) (preSave a2) = true := by
    simp only [preSave, preSaveName_googleId, preSaveVerify_googleId, hgid]
    simp
  exact find?_replace (preSave a2) hfind hid2 hpu

lemma findByGoogleId_create {s s2 : Store} {gid : String} {d u : Account}
    (hfind : findByGoogleId s gid = none)
    (hcreate : Store.create d s = .ok (u, s2))
    (hgid : d.googleId = some gid) :
    findByGoogleId s2 gid = some u := by
  obtain ⟨hv, hdup, hu, hs⟩ := Store.create_ok hcreate
  subst hu
  subst hs
  unfold findByGoogleId at hfind ⊢
  rw [find?_append_of_none hfind]
  have hpu : (fun b => b.googleId == some gid) (insertDoc d s) = true := by
    simp only [insertDoc, preSave, preSaveName_googleId, preSaveVerify_googleId]
    simp [Account.withInsertDefaults, hgid]
  exact List.find?_cons_of_pos _ hpu

lemma reconcileMobile_found {p : UserProfile} {prov : String} {now : Nat} {s : Store}
    {u : Account} {s2 : Store}
    (h : reconcileMobile p prov now s = .ok (u, s2)) :
    findByGoogleId s2 p.id = some u := by
  unfold reconcileMobile at h
  split at h
  · rename_i a hf
    have hga : a.googleId = some p.id := by
      have hpa := List.find?_some hf
      simpa using hpa
    exact findByGoogleId_save hf h rfl hga
  · rename_i hf
    exact findByGoogleId_create hf h rfl

lemma reconcileCallback_found {p : CbProfile} {now : Nat} {s : Store}
    {u : Account} {s2 : Store}
    (h : reconcileCallback p now s = .ok (u, s2)) :
    findByGoogleId s2 p.id = some u := by
  unfold reconcileCallback at h
  split at h
  · rename_i a hf
    have hga : a.googleId = some p.id := by
      have hpa := List.find?_some hf
      simpa using hpa
    exact findByGoogleId_save hf h rfl hga
  · rename_i hf
    exact findByGoogleId_create hf h rfl

lemma validateAccount_name {a : Account} (h : validateAccount a = true) :
    truthy a.name = true := by
  unfold validateAccount at h
  simp only [Bool.and_eq_true] at h
  exact h.1.1.1.1.1.1.1.1.1

lemma mem_allowedAudiences (cid : Option String) (a : String) (h : a.isEmpty = false) :
    a ∈ allowedAudiences cid (some a) := by
  unfold allowedAudiences
  cases cid with
  | none => simp [List.filterMap, List.filter, h]
  | some c =>
    cases hc : c.isEmpty with
    | true => simp [List.filterMap, List.filter, h, hc]
    | false => simp [List.filterMap, List.filter, h, hc]

lemma verifyIdToken_ok (tok : IdToken) (cid : Option String)
    (h2 : tok.sigValid = true) (h3 : tok.expired = false) (h4 : truthy tok.aud = true) :
    verifyIdToken tok (allowedAudiences cid tok.aud) = .ok () := by
  unfold verifyIdToken
  rw [h2, h3]
  cases ha : tok.aud with
  | none =>
    rw [ha] at h4
    simp [truthy] at h4
  | some a =>
    have hne : a.isEmpty = false := by
      rw [ha] at h4
      simpa [truthy] using h4
    simp [mem_allowedAudiences cid a hne]

lemma oAuthMobileRun_google (env : MobileEnv) (tok : IdToken) (now : Nat) (s : Store)
    (h1 : tok.wellFormed = true) (h2 : tok.sigValid = true) (h3 : tok.expired = false)
    (h4 : truthy tok.aud = true) (h5 : truthy tok.sub = true) (h6 : truthy tok.email = true) :
    oAuthMobileRun env (some tok) (some "google") now s =
      (match reconcileMobile (userProfileOf tok) "google" now s with
       | .error .validationError => (.validationError, s)
       | .error .duplicateKey => (.internalError, s)
       | .ok (u, s2) =>
         if env.signFails then (.internalError, s2)
         else (.success u (Token.sign ⟨u.name, u.id, u.role⟩ now), s2)) := by
  have e1 : truthy (some "google") = true := by decide
  have e2 : supportedProviders.contains (lowerString ((some "google" : Option String).getD ""))
      = true := by decide
  have e3 : ((lowerString ((some "google" : Option String).getD "")) != "google") = false := by
    decide
  have e4 : lowerString ((some "google" : Option String).getD "") = "google" := by decide
  have e5 : supportedProviders.contains "google" = true := by decide
  have e6 : (("google" : String) != "google") = false := by decide
  have hverify := verifyIdToken_ok tok env.googleClientId h2 h3 h4
  simp only [oAuthMobileRun, e1, e2, e3, e4, e5, e6, h1, h5, h6, hverify, Bool.not_true,
    Bool.not_false, Bool.or_self, if_true, if_false, Bool.false_eq_true, ite_false, ite_true]

/-- C1: the claim states that a mobile-flow login whose identity token
audience matches no configured client identifier fails with the 401
audience-mismatch response and never creates or updates an account.
Evaluating the embedded handler at the spec's own scenario (token audience
client-999, configured audience client-123, valid signature, fresh store)
shows the code instead accepts the token and creates an account, because
allowedAudiences includes the token's own audience claim. -/
theorem c1_foreign_audience_token_accepted :
    oAuthMobileRun ⟨some "client-123", false⟩ (some tokC1) (some "google") 5 emptyStore
      = (.success acctC1 (Token.sign ⟨some "a@b.com", 1, "customer"⟩ 5), ⟨[acctC1], 2⟩) ∧
    mobileStatus (.success acctC1 (Token.sign ⟨some "a@b.com", 1, "customer"⟩ 5)) = 200 := by
  exact ⟨by decide, rfl⟩

/-- C2 counterexample: when the token-endpoint response exists but carries
no access_token field, the callback flow does not fail with the
token-exchange error the claim requires; it proceeds to the profile fetch
and fails with the profile-fetch error instead. -/
theorem c2_missing_access_token_not_exchange_error :
    oauthCallbackRun envC2 (some "code1") 3 emptyStore = (.profileFetchFailed, emptyStore) ∧
    CallbackRes.profileFetchFailed ≠ CallbackRes.tokenExchangeFailed := by
  exact ⟨by decide, by decide⟩

/-- C2 (amended): when the provider rejects the authorization code (the
exchange helper returns null) the callback flow fails with the
token-exchange error as a client-visible 400 and the store is unchanged;
when the exchange response lacks an access_token field the flow instead
proceeds to the profile fetch with an absent token and, when that fetch
fails, fails with the profile-fetch error as a 400, likewise leaving the
store unchanged. -/
theorem c2_exchange_failure_amended (env : CbEnv) (code : String) (now : Nat) (s : Store)
    (hc : code.isEmpty = false) :
    (env.exchange code = none →
      oauthCallbackRun env (some code) now s = (.tokenExchangeFailed, s) ∧
      callbackStatus .tokenExchangeFailed = 400) ∧
    (∀ td : TokenData, env.exchange code = some td → td.access_token = none →
      env.getProfile none = none →
      oauthCallbackRun env (some code) now s = (.profileFetchFailed, s) ∧
      callbackStatus .profileFetchFailed = 400) := by
  constructor
  · intro hex
    refine ⟨?_, rfl⟩
    simp only [oauthCallbackRun, truthy, Option.getD_some, hc, Bool.not_false, Bool.not_true,
      Bool.not_not, Bool.false_eq_true, if_false, hex]
  · intro td hex hat hgp
    refine ⟨?_, rfl⟩
    simp only [oauthCallbackRun, truthy, Option.getD_some, hc, Bool.not_false, Bool.not_true,
      Bool.not_not, Bool.false_eq_true, if_false, hex, hat, hgp]

/-- C2 witness: the amended theorem applied at a concrete rejected
exchange. -/
theorem c2_exchange_failure_amended_witness :
    oauthCallbackRun envC2b (some "c") 0 emptyStore = (.tokenExchangeFailed, emptyStore) ∧
    callbackStatus .tokenExchangeFailed = 400 :=
  (c2_exchange_failure_amended envC2b "c" 0 emptyStore (by decide)).1 rfl

/-- C3: the claim states that refreshing with a valid refresh token yields
a new access token for the same subject, and that an expired or tampered
refresh token yields the invalid-refresh-token error as a 401 response.
The first half holds of the spec-modelled issuer; but on a tampered token
the loginWithToken handler rethrows the error (catch with throw), so the
failure escapes the handler as an exception (the .error case) and no 401
response is produced by the controller. -/
theorem c3_refresh_same_subject_but_rethrow :
    (loginWithToken 100 (some (Token.sign claimsC3 0).refreshToken)
        = .ok (.success (Token.sign claimsC3 100)) ∧
      (Token.sign claimsC3 100).accessToken.claims.idUser = claimsC3.idUser) ∧
    loginWithToken 100 (some tamperedC3) = .error .invalidRefreshToken := by
  exact ⟨⟨rfl, rfl⟩, rfl⟩

/-- C4: the claim states that the store enforces uniqueness of
providerUserId via a unique index and that a duplicate-create is recovered
by re-reading.  Evaluating the embedded store at two inserts that share
googleId g1 shows both succeed and the store ends up holding two accounts
with that googleId: the schema's googleId index is sparse but not unique,
so no duplicate-key error ever arises for googleId (and the controller
contains no re-read recovery; a duplicate-key error on the email index is
surfaced as a 500, as the C10 development records). -/
theorem c4_duplicate_googleId_not_rejected :
    ((Store.create c4d1 emptyStore).toOption.bind
        (fun r => (Store.create c4d2 r.2).toOption)).map
      (fun r => ((r.2.accounts.filter (fun a => a.googleId == some "g1")).length,
                 r.2.accounts.length))
      = some (2, 2) := by decide

/-- C5 counterexample: a browser-callback login that finds an existing
account whose provider is unset (googleId g1, isGoogleUser false) succeeds
yet leaves provider unset, so the claim's "either orchestrator" is false:
only the mobile flow backfills provider. -/
theorem c5_callback_login_leaves_provider_unset :
    oauthCallbackRun envC5 (some "code1") 7 ⟨[acctC5], 2⟩
      = (.success acctC5b (Token.sign ⟨some "New Name", 1, "customer"⟩ 7), ⟨[acctC5b], 2⟩) ∧
    acctC5.provider = none ∧ acctC5b.provider = none := by
  exact ⟨by decide, rfl, rfl⟩

/-- C5 (amended): in the mobile token flow, a successful reconciliation of
an existing account whose provider is falsy backfills provider from the
current login's provider, and beyond the standard profile refresh (name,
firstName, lastName, avatar, lastLogin) it alters nothing else: id, role,
email, password, googleId and isGoogleUser are unchanged. -/
theorem c5_mobile_backfill_alters_only_provider (s : Store) (p : UserProfile) (prov : String)
    (now : Nat) (a u : Account) (s2 : Store)
    (hfind : findByGoogleId s p.id = some a)
    (hprov : truthy a.provider = false)
    (hrec : reconcileMobile p prov now s = .ok (u, s2)) :
    u.provider = some prov ∧
    u.id = a.id ∧ u.role = a.role ∧ u.email = a.email ∧ u.password = a.password ∧
    u.googleId = a.googleId ∧ u.isGoogleUser = a.isGoogleUser ∧
    u.name = some p.name ∧ u.firstName = p.given_name ∧ u.lastName = p.family_name ∧
    u.avatar = p.picture ∧ u.lastLogin = some now := by
  unfold reconcileMobile at hrec
  split at hrec
  · rename_i a2 hf2
    rw [hfind] at hf2
    injection hf2 with he
    subst he
    obtain ⟨hv, hu, hs⟩ := Store.save_ok hrec
    subst hu
    have hname : truthy (some p.name) = true := validateAccount_name hv
    refine ⟨?_, ?_, ?_, ?_, ?_, ?_, ?_, ?_, ?_, ?_, ?_, ?_⟩
    · simp only [preSave, preSaveName_provider, preSaveVerify_provider]
      simp [hprov]
    · simp [preSave, preSaveName_id, preSaveVerify_id]
    · simp [preSave, preSaveName_role, preSaveVerify_role]
    · simp [preSave, preSaveName_email, preSaveVerify_email]
    · simp [preSave, preSaveName_password, preSaveVerify_password]
    · simp [preSave, preSaveName_googleId, preSaveVerify_googleId]
    · simp [preSave, preSaveName_isGoogleUser, preSaveVerify_isGoogleUser]
    · exact preSave_name_of_truthy _ hname
    · simp [preSave, preSaveName_firstName, preSaveVerify_firstName]
    · simp [preSave, preSaveName_lastName, preSaveVerify_lastName]
    · simp [preSave, preSaveName_avatar, preSaveVerify_avatar]
    · simp [preSave, preSaveName_lastLogin, preSaveVerify_lastLogin]
  · rename_i hf2
    rw [hfind] at hf2
    cases hf2

/-- C5 witness: the amended theorem applied at a concrete legacy account
(googleId gm5, provider unset) and a fresh mobile profile. -/
theorem c5_mobile_backfill_witness :
    acctC5mb.provider = some "google" ∧
    acctC5mb.id = acctC5m.id ∧ acctC5mb.role = acctC5m.role ∧
    acctC5mb.email = acctC5m.email ∧ acctC5mb.password = acctC5m.password ∧
    acctC5mb.googleId = acctC5m.googleId ∧ acctC5mb.isGoogleUser = acctC5m.isGoogleUser ∧
    acctC5mb.name = some profC5m.name ∧ acctC5mb.firstName = profC5m.given_name ∧
    acctC5mb.lastName = profC5m.family_name ∧ acctC5mb.avatar = profC5m.picture ∧
    acctC5mb.lastLogin = some 9 :=
  c5_mobile_backfill_alters_only_provider ⟨[acctC5m], 2⟩ profC5m "google" 9 acctC5m acctC5mb
    ⟨[acctC5mb], 2⟩ rfl rfl rfl

/-- C9: a successful reconciliation of an existing account, in either the
mobile flow or the browser-callback flow, leaves role unchanged (an
out-of-band admin role is never reverted) and never downgrades
isEmailVerified from true: the update blocks never touch role, and the
pre-save middleware can only raise isEmailVerified. -/
theorem c9_role_verification_monotone
    (sM : Store) (p : UserProfile) (prov : String) (nowM : Nat) (a u : Account) (s1 : Store)
    (sC : Store) (q : CbProfile) (nowC : Nat) (b v : Account) (s2 : Store) :
    ((findByGoogleId sM p.id = some a ∧ reconcileMobile p prov nowM sM = .ok (u, s1)) →
      u.role = a.role ∧ (a.isEmailVerified = true → u.isEmailVerified = true)) ∧
    ((findByGoogleId sC q.id = some b ∧ reconcileCallback q nowC sC = .ok (v, s2)) →
      v.role = b.role ∧ (b.isEmailVerified = true → v.isEmailVerified = true)) := by
  constructor
  · rintro ⟨hfind, hrec⟩
    unfold reconcileMobile at hrec
    split at hrec
    · rename_i a2 hf2
      rw [hfind] at hf2
      injection hf2 with he
      subst he
      obtain ⟨hv, hu, -⟩ := Store.save_ok hrec
      subst hu
      constructor
      · simp [preSave, preSaveName_role, preSaveVerify_role]
      · intro hev
        rw [preSave_isEmailVerified]
        simp [hev]
    · rename_i hf2
      rw [hfind] at hf2
      cases hf2
  · rintro ⟨hfind, hrec⟩
    unfold reconcileCallback at hrec
    split at hrec
    · rename_i b2 hf2
      rw [hfind] at hf2
      injection hf2 with he
      subst he
      obtain ⟨hv, hu, -⟩ := Store.save_ok hrec
      subst hu
      constructor
      · simp [preSave, preSaveName_role, preSaveVerify_role]
      · intro hev
        rw [preSave_isEmailVerified]
        simp [hev]
    · rename_i hf2
      rw [hfind] at hf2
      cases hf2

/-- C9 witness: an out-of-band admin account reconciled through both flows
keeps role admin and isEmailVerified true. -/
theorem c9_role_verification_monotone_witness :
    (acctC9b.role = acctC9.role ∧
      (acctC9.isEmailVerified = true → acctC9b.isEmailVerified = true)) ∧
    (acctC9c.role = acctC9.role ∧
      (acctC9.isEmailVerified = true → acctC9c.isEmailVerified = true)) :=
  ⟨(c9_role_verification_monotone ⟨[acctC9], 2⟩ profC9 "google" 3 acctC9 acctC9b ⟨[acctC9b], 2⟩
      ⟨[acctC9], 2⟩ profC9cb 4 acctC9 acctC9c ⟨[acctC9c], 2⟩).1 ⟨rfl, rfl⟩,
   (c9_role_verification_monotone ⟨[acctC9], 2⟩ profC9 "google" 3 acctC9 acctC9b ⟨[acctC9b], 2⟩
      ⟨[acctC9], 2⟩ profC9cb 4 acctC9 acctC9c ⟨[acctC9c], 2⟩).2 ⟨rfl, rfl⟩⟩

/-- C8: running the mobile reconciler twice on a fresh store with the same
providerUserId and two profile snapshots yields exactly one account, whose
id is unchanged across both calls and whose profile fields after the
second call equal the second snapshot's values. -/
theorem c8_idempotent_reconciliation (p1 p2 : UserProfile) (t1 t2 : Nat)
    (u1 u2 : Account) (s1 s2 : Store)
    (hid : p1.id = p2.id)
    (h1 : reconcileMobile p1 "google" t1 emptyStore = .ok (u1, s1))
    (h2 : reconcileMobile p2 "google" t2 s1 = .ok (u2, s2)) :
    s2.accounts.length = 1 ∧ u2.id = u1.id ∧
    u2.name = some p2.name ∧ u2.firstName = p2.given_name ∧ u2.lastName = p2.family_name ∧
    u2.avatar = p2.picture ∧ u2.lastLogin = some t2 := by
  have hf : findByGoogleId s1 p2.id = some u1 := by
    have hf0 := reconcileMobile_found h1
    rwa [hid] at hf0
  have hlen1 : s1.accounts.length = 1 := by
    unfold reconcileMobile at h1
    split at h1
    · rename_i a2 hf2
      simp [findByGoogleId, emptyStore] at hf2
    · obtain ⟨-, -, -, hs1⟩ := Store.create_ok h1
      rw [hs1]
      simp [emptyStore]
  unfold reconcileMobile at h2
  split at h2
  · rename_i a2 hf2
    rw [hf] at hf2
    injection hf2 with he
    subst he
    obtain ⟨hv2, hu2, hs2⟩ := Store.save_ok h2
    subst hu2
    subst hs2
    have hname2 : truthy (some p2.name) = true := validateAccount_name hv2
    refine ⟨?_, ?_, ?_, ?_, ?_, ?_, ?_⟩
    · simp [List.length_map, hlen1]
    · simp [preSave, preSaveName_id, preSaveVerify_id]
    · exact preSave_name_of_truthy _ hname2
    · simp [preSave, preSaveName_firstName, preSaveVerify_firstName]
    · simp [preSave, preSaveName_lastName, preSaveVerify_lastName]
    · simp [preSave, preSaveName_avatar, preSaveVerify_avatar]
    · simp [preSave, preSaveName_lastLogin, preSaveVerify_lastLogin]
  · rename_i hf2
    rw [hf] at hf2
    cases hf2

/-- C8 witness: two concrete snapshots for googleId g8, the second with a
different display name, new profile fields and a different email (the
email field is not part of the profile refresh and stays as created). -/
theorem c8_idempotent_reconciliation_witness :
    (⟨[acctC8b], 2⟩ : Store).accounts.length = 1 ∧ acctC8b.id = acctC8a.id ∧
    acctC8b.name = some profC8b.name ∧ acctC8b.firstName = profC8b.given_name ∧
    acctC8b.lastName = profC8b.family_name ∧ acctC8b.avatar = profC8b.picture ∧
    acctC8b.lastLogin = some 2 :=
  c8_idempotent_reconciliation profC8a profC8b 1 2 acctC8a acctC8b ⟨[acctC8a], 2⟩
    ⟨[acctC8b], 2⟩ rfl rfl rfl

/-- C6: in both login flows, when token signing fails after the account
has been created or updated, the handler's catch returns the 500 response
while the store keeps the reconciled account (no rollback), so a retried
login's googleId lookup finds the now-existing account. -/
theorem c6_sign_failure_account_persists
    (cid : Option String) (tok : IdToken) (nowM : Nat) (sM : Store) (u : Account) (s1 : Store)
    (cbenv : CbEnv) (code : String) (td : TokenData) (cbp : CbProfile)
    (nowC : Nat) (sC : Store) (v : Account) (s2 : Store) :
    ((tok.wellFormed = true ∧ tok.sigValid = true ∧ tok.expired = false ∧
      truthy tok.aud = true ∧ truthy tok.sub = true ∧ truthy tok.email = true ∧
      reconcileMobile (userProfileOf tok) "google" nowM sM = .ok (u, s1)) →
      oAuthMobileRun ⟨cid, true⟩ (some tok) (some "google") nowM sM = (.internalError, s1) ∧
      mobileStatus .internalError = 500 ∧
      findByGoogleId s1 (userProfileOf tok).id = some u) ∧
    ((code.isEmpty = false ∧ cbenv.signFails = true ∧ cbenv.exchange code = some td ∧
      cbenv.getProfile td.access_token = some cbp ∧
      reconcileCallback cbp nowC sC = .ok (v, s2)) →
      oauthCallbackRun cbenv (some code) nowC sC = (.internalError, s2) ∧
      callbackStatus .internalError = 500 ∧
      findByGoogleId s2 cbp.id = some v) := by
  constructor
  · rintro ⟨h1, h2, h3, h4, h5, h6, hrec⟩
    refine ⟨?_, rfl, reconcileMobile_found hrec⟩
    rw [oAuthMobileRun_google ⟨cid, true⟩ tok nowM sM h1 h2 h3 h4 h5 h6, hrec]
    rfl
  · rintro ⟨hc, hsf, hex, hgp, hrec⟩
    refine ⟨?_, rfl, reconcileCallback_found hrec⟩
    simp only [oauthCallbackRun, truthy, Option.getD_some, hc, Bool.not_false, Bool.not_true,
      Bool.not_not, Bool.false_eq_true, if_false, hex, hgp, hrec, hsf, if_true]

/-- C6 witness: a failing signer after a mobile create and after a
callback update; in both cases the 500 response is returned, the store
keeps the write, and a lookup finds the account. -/
theorem c6_sign_failure_account_persists_witness :
    (oAuthMobileRun ⟨some "cw", true⟩ (some tokC6) (some "google") 4 emptyStore
        = (.internalError, ⟨[acctC6], 2⟩) ∧
      mobileStatus .internalError = 500 ∧
      findByGoogleId ⟨[acctC6], 2⟩ (userProfileOf tokC6).id = some acctC6) ∧
    (oauthCallbackRun envC6 (some "cb1") 11 ⟨[acctC6cb], 2⟩
        = (.internalError, ⟨[acctC6cb2], 2⟩) ∧
      callbackStatus .internalError = 500 ∧
      findByGoogleId ⟨[acctC6cb2], 2⟩ profC6cb.id = some acctC6cb2) :=
  ⟨(c6_sign_failure_account_persists (some "cw") tokC6 4 emptyStore acctC6 ⟨[acctC6], 2⟩
      envC6 "cb1" ⟨some "t"⟩ profC6cb 11 ⟨[acctC6cb], 2⟩ acctC6cb2 ⟨[acctC6cb2], 2⟩).1
      ⟨rfl, rfl, rfl, rfl, rfl, rfl, rfl⟩,
   (c6_sign_failure_account_persists (some "cw") tokC6 4 emptyStore acctC6 ⟨[acctC6], 2⟩
      envC6 "cb1" ⟨some "t"⟩ profC6cb 11 ⟨[acctC6cb], 2⟩ acctC6cb2 ⟨[acctC6cb2], 2⟩).2
      ⟨rfl, rfl, rfl, rfl, rfl⟩⟩

/-- C7 counterexample: a first-time mobile login (no account with
googleId g123 exists) whose email a@b.com collides with an existing
non-OAuth account is rejected by the unique email index: no account is
created, the response is the 500 internal error, and no tokens are
issued — refuting the claim that every such login creates an account. -/
theorem c7_email_collision_no_account_created :
    oAuthMobileRun ⟨some "client-123", false⟩ (some tokC7) (some "google") 6 ⟨[acctC7], 2⟩
      = (.internalError, ⟨[acctC7], 2⟩) ∧
    mobileStatus .internalError = 500 ∧
    findByGoogleId ⟨[acctC7], 2⟩ (tokC7.sub.getD "") = none := by
  exact ⟨by decide, rfl, by decide⟩

/-- C7 (amended): a mobile login with verified sub and email, no existing
account for that providerUserId, and a creation the store accepts (in
particular no existing account holds that email) creates an account with
that googleId, the lowercased email, provider google, isEmailVerified
true, role customer, no password, lastLogin now, the display name falling
back to the raw email when the token carries no name; the account is
appended to the store and session tokens for it are returned with 200. -/
theorem c7_new_account_fields_amended (cid : Option String) (tok : IdToken) (now : Nat)
    (s : Store) (u : Account) (s2 : Store)
    (h1 : tok.wellFormed = true) (h2 : tok.sigValid = true) (h3 : tok.expired = false)
    (h4 : truthy tok.aud = true) (h5 : truthy tok.sub = true) (h6 : truthy tok.email = true)
    (hfind : findByGoogleId s (userProfileOf tok).id = none)
    (hrec : reconcileMobile (userProfileOf tok) "google" now s = .ok (u, s2)) :
    oAuthMobileRun ⟨cid, false⟩ (some tok) (some "google") now s
      = (.success u (Token.sign ⟨u.name, u.id, u.role⟩ now), s2) ∧
    u.googleId = some (tok.sub.getD "") ∧
    u.email = some (lowerString (tok.email.getD "")) ∧
    u.provider = some "google" ∧ u.isEmailVerified = true ∧ u.role = "customer" ∧
    u.isGoogleUser = true ∧ u.password = none ∧ u.lastLogin = some now ∧
    (truthy tok.name = false → u.name = some (tok.email.getD "")) ∧
    s2.accounts = s.accounts ++ [u] := by
  have hrun : oAuthMobileRun ⟨cid, false⟩ (some tok) (some "google") now s
      = (.success u (Token.sign ⟨u.name, u.id, u.role⟩ now), s2) := by
    rw [oAuthMobileRun_google ⟨cid, false⟩ tok now s h1 h2 h3 h4 h5 h6, hrec]
    rfl
  refine ⟨hrun, ?_⟩
  unfold reconcileMobile at hrec
  split at hrec
  · rename_i a2 hf2
    rw [hfind] at hf2
    cases hf2
  · obtain ⟨hv, -, hu, hs⟩ := Store.create_ok hrec
    subst hu
    subst hs
    refine ⟨?_, ?_, ?_, ?_, ?_, ?_, ?_, ?_, ?_, rfl⟩
    · simp [insertDoc, preSave, preSaveName_googleId, preSaveVerify_googleId,
        Account.withInsertDefaults, mobileNewData, userProfileOf]
    · simp [insertDoc, preSave, preSaveName_email, preSaveVerify_email,
        Account.withInsertDefaults, mobileNewData, userProfileOf, normEmail]
    · simp [insertDoc, preSave, preSaveName_provider, preSaveVerify_provider,
        Account.withInsertDefaults, mobileNewData]
    · simp [insertDoc, preSave_isEmailVerified, Account.withInsertDefaults, mobileNewData]
    · simp [insertDoc, preSave, preSaveName_role, preSaveVerify_role,
        Account.withInsertDefaults, mobileNewData]
    · simp [insertDoc, preSave, preSaveName_isGoogleUser, preSaveVerify_isGoogleUser,
        Account.withInsertDefaults, mobileNewData]
    · simp [insertDoc, preSave, preSaveName_password, preSaveVerify_password,
        Account.withInsertDefaults, mobileNewData]
    · simp [insertDoc, preSave, preSaveName_lastLogin, preSaveVerify_lastLogin,
        Account.withInsertDefaults, mobileNewData]
    · intro htn
      have hname : truthy ((mobileNewData (userProfileOf tok) "google" now).withInsertDefaults
          s.nextId).name = true := validateAccount_name hv
      unfold insertDoc
      rw [preSave_name_of_truthy _ hname]
      simp [Account.withInsertDefaults, mobileNewData, userProfileOf, htn]

/-- C7 witness: the amended theorem at a token with no display name and an
upper-case email on a fresh store. -/
theorem c7_new_account_fields_witness :
    oAuthMobileRun ⟨some "c7", false⟩ (some tokC7w) (some "google") 12 emptyStore
      = (.success acctC7w (Token.sign ⟨acctC7w.name, acctC7w.id, acctC7w.role⟩ 12),
         ⟨[acctC7w], 2⟩) ∧
    acctC7w.googleId = some (tokC7w.sub.getD "") ∧
    acctC7w.email = some (lowerString (tokC7w.email.getD "")) ∧
    acctC7w.provider = some "google" ∧ acctC7w.isEmailVerified = true ∧
    acctC7w.role = "customer" ∧ acctC7w.isGoogleUser = true ∧ acctC7w.password = none ∧
    acctC7w.lastLogin = some 12 ∧
    (truthy tokC7w.name = false → acctC7w.name = some (tokC7w.email.getD "")) ∧
    (⟨[acctC7w], 2⟩ : Store).accounts = emptyStore.accounts ++ [acctC7w] :=
  c7_new_account_fields_amended (some "c7") tokC7w 12 emptyStore acctC7w ⟨[acctC7w], 2⟩
    rfl rfl rfl rfl rfl rfl rfl rfl

/-- C10 counterexample: in the browser-callback flow, a first-time login
whose email collides with the existing non-OAuth account acctC7 is
rejected by the schema's provider-required validation (the callback
create branch sets isGoogleUser without a provider), not by the unique
email index the claim names: the reconciler yields validationError, not
duplicateKey, and the handler surfaces the 500 error with the store
unchanged. -/
theorem c10_callback_rejected_before_email_index :
    reconcileCallback profC10 6 ⟨[acctC7], 2⟩ = .error .validationError ∧
    reconcileCallback profC10 6 ⟨[acctC7], 2⟩ ≠ .error .duplicateKey ∧
    oauthCallbackRun envC10 (some "c10") 6 ⟨[acctC7], 2⟩
      = (.internalError, ⟨[acctC7], 2⟩) := by
  have h1 : reconcileCallback profC10 6 ⟨[acctC7], 2⟩ = .error .validationError := rfl
  refine ⟨h1, ?_, by decide⟩
  intro h
  rw [h1] at h
  simp at h

/-- C10 (amended): both orchestrators look an account up solely by
googleId and never by email, so a first-time OAuth login whose email
equals an existing non-OAuth account's stored email is not linked to that
account but attempts to create a second one, and the attempt is surfaced
as the 500 error response with the store unchanged rather than a
successful login: in the mobile flow the unique email index rejects the
create (duplicateKey), while in the browser-callback flow the create is
rejected already by the schema's provider-required validation, before the
email index is reached. -/
theorem c10_email_collision_not_linked_amended
    (cid : Option String) (sf : Bool) (tok : IdToken) (nowM : Nat) (sM : Store) (b : Account)
    (cbenv : CbEnv) (code : String) (td : TokenData) (q : CbProfile) (nowC : Nat)
    (sC : Store) (c : Account) :
    ((tok.wellFormed = true ∧ tok.sigValid = true ∧ tok.expired = false ∧
      truthy tok.aud = true ∧ truthy tok.sub = true ∧ truthy tok.email = true ∧
      findByGoogleId sM (userProfileOf tok).id = none ∧
      validateAccount
        ((mobileNewData (userProfileOf tok) "google" nowM).withInsertDefaults sM.nextId)
        = true ∧
      b ∈ sM.accounts ∧ b.email = some (lowerString (tok.email.getD ""))) →
      oAuthMobileRun ⟨cid, sf⟩ (some tok) (some "google") nowM sM = (.internalError, sM) ∧
      mobileStatus .internalError = 500 ∧
      reconcileMobile (userProfileOf tok) "google" nowM sM = .error .duplicateKey) ∧
    ((code.isEmpty = false ∧ cbenv.exchange code = some td ∧
      cbenv.getProfile td.access_token = some q ∧
      findByGoogleId sC q.id = none ∧ c ∈ sC.accounts ∧ c.email = q.email) →
      oauthCallbackRun cbenv (some code) nowC sC = (.internalError, sC) ∧
      callbackStatus .internalError = 500 ∧
      reconcileCallback q nowC sC = .error .validationError) := by
  constructor
  · rintro ⟨h1, h2, h3, h4, h5, h6, hfind, hval, hb, hbe⟩
    have hrec : reconcileMobile (userProfileOf tok) "google" nowM sM
        = .error .duplicateKey := by
      unfold reconcileMobile
      rw [hfind]
      show Store.create (mobileNewData (userProfileOf tok) "google" nowM) sM
        = .error .duplicateKey
      have hdup : sM.accounts.any
          (fun x => x.email ==
            (insertDoc (mobileNewData (userProfileOf tok) "google" nowM) sM).email)
          = true := by
        rw [List.any_eq_true]
        refine ⟨b, hb, ?_⟩
        rw [hbe]
        simp [insertDoc, preSave, preSaveName_email, preSaveVerify_email,
          Account.withInsertDefaults, normEmail, mobileNewData, userProfileOf]
      unfold Store.create
      rw [hval]
      simp [hdup]
    refine ⟨?_, rfl, hrec⟩
    rw [oAuthMobileRun_google ⟨cid, sf⟩ tok nowM sM h1 h2 h3 h4 h5 h6, hrec]
  · rintro ⟨hc, hex, hgp, hfind, hcmem, hce⟩
    have hrec : reconcileCallback q nowC sC = .error .validationError := by
      have hvf : validateAccount
          ((⟨0, q.name, q.email, none, "customer", q.given_name, q.family_name, q.picture,
            true, some q.id, true, none, some nowC⟩ : Account).withInsertDefaults sC.nextId)
          = false := by
        simp [validateAccount, Account.withInsertDefaults, truthy]
      have hD : Store.create
          (⟨0, q.name, q.email, none, "customer", q.given_name, q.family_name, q.picture,
            true, some q.id, true, none, some nowC⟩ : Account) sC
          = .error .validationError := by
        unfold Store.create
        rw [hvf]
        simp
      unfold reconcileCallback
      rw [hfind]
      exact hD
    refine ⟨?_, rfl, hrec⟩
    simp only [oauthCallbackRun, truthy, Option.getD_some, hc, Bool.not_false, Bool.not_true,
      Bool.not_not, Bool.false_eq_true, if_false, hex, hgp, hrec]

/-- C10 witness: the amended theorem at the concrete collision of an
incoming Google identity (sub g123, email a@b.com) with the existing
non-OAuth account acctC7, through both orchestrators. -/
theorem c10_email_collision_witness :
    (oAuthMobileRun ⟨some "client-123", false⟩ (some tokC7) (some "google") 6 ⟨[acctC7], 2⟩
        = (.internalError, ⟨[acctC7], 2⟩) ∧
      mobileStatus .internalError = 500 ∧
      reconcileMobile (userProfileOf tokC7) "google" 6 ⟨[acctC7], 2⟩
        = .error .duplicateKey) ∧
    (oauthCallbackRun envC10 (some "c10") 6 ⟨[acctC7], 2⟩ = (.internalError, ⟨[acctC7], 2⟩) ∧
      callbackStatus .internalError = 500 ∧
      reconcileCallback profC10 6 ⟨[acctC7], 2⟩ = .error .validationError) :=
  ⟨(c10_email_collision_not_linked_amended (some "client-123") false tokC7 6 ⟨[acctC7], 2⟩
      acctC7 envC10 "c10" ⟨some "at10"⟩ profC10 6 ⟨[acctC7], 2⟩ acctC7).1
      ⟨rfl, rfl, rfl, rfl, rfl, rfl, rfl, by decide, by decide, rfl⟩,
   (c10_email_collision_not_linked_amended (some "client-123") false tokC7 6 ⟨[acctC7], 2⟩
      acctC7 envC10 "c10" ⟨some "at10"⟩ profC10 6 ⟨[acctC7], 2⟩ acctC7).2
      ⟨rfl, rfl, rfl, rfl, by decide, rfl⟩⟩
